import Mathlib

/-!
Verification development for the MONAI inferer module
(`monai/inferers/inferer.py`) and the simple-layers module
(`monai/networks/layers/simplelayers.py`).

Tensors are shallowly embedded as flat, row-major lists of rationals with an
explicit shape, plus device and dtype tags (small naturals standing for the
framework's device/dtype identifiers).  Python values that may or may not be
sequences are embedded as an inductive `PyVal`, so that `isinstance(roi_size,
(list, tuple))` is expressible.  Fallible operations return `Option`/`Except`.
-/

/-- A Python value that can be passed as the `roi_size` argument of
`SlidingWindowInferer.__init__`.  Sequences carry their elements; the other
constructors embed the non-sequence values relevant to the claims. -/
inductive PyVal where
  | pyList (xs : List Int)
  | pyTuple (xs : List Int)
  | pyInt (n : Int)
  | pyStr (s : String)
  | pyNone
  deriving DecidableEq, Repr

/-- Embedding of `isinstance(roi_size, (list, tuple))`. -/
def PyVal.isRoiSeq : PyVal → Bool
  | .pyList _ => true
  | .pyTuple _ => true
  | _ => false

/-- The sequence elements of a `PyVal`, as window sizes (`int(x)` clamped at 0
for the Nat embedding); `[]` for non-sequences. -/
def PyVal.toSizes : PyVal → List Nat
  | .pyList xs => xs.map Int.toNat
  | .pyTuple xs => xs.map Int.toNat
  | _ => []

/-- An N-dimensional tensor: shape, row-major flat data, and device/dtype
tags (naturals standing in for `torch.device` / `torch.dtype` values; `0` is
read as the CPU device resp. `float32`). -/
structure Tensor where
  device : Nat
  dtype : Nat
  shape : List Nat
  data : List Rat
  deriving DecidableEq, Repr

/-- Embedding of `x.to(ref)`: move/cast `x` to `ref`'s device and dtype
(values are exact rationals in this model, so the cast keeps the data). -/
def tensorTo (x ref : Tensor) : Tensor :=
  { x with device := ref.device, dtype := ref.dtype }

/-! ## `monai/inferers/inferer.py` -/

/-- Embedding of `RegularInferer.__call__`: `return network(inputs)`. -/
def RegularInferer.call (inputs : Tensor) (network : Tensor → Tensor) : Tensor :=
  network inputs

/-- The configuration fields stored by `SlidingWindowInferer.__init__`
(`self.roi_size`, `self.sw_batch_size`, `self.overlap`, `self.blend_mode`).
`sw_batch_size` is an `Int` because Python accepts any integer here. -/
structure SlidingWindowInferer where
  roi_size : PyVal
  sw_batch_size : Int
  overlap : Rat
  blend_mode : String
  deriving DecidableEq, Repr

/-- Default value of the `sw_batch_size` parameter of
`SlidingWindowInferer.__init__`. -/
def default_sw_batch_size : Int := 1

/-- Default value of the `overlap` parameter of
`SlidingWindowInferer.__init__` (`0.25`). -/
def default_overlap : Rat := 1 / 4

/-- Default value of the `blend_mode` parameter of
`SlidingWindowInferer.__init__`. -/
def default_blend_mode : String := "constant"

/-- Embedding of `SlidingWindowInferer.__init__`: asserts
`isinstance(roi_size, (list, tuple))` and stores the four arguments
unchanged.  The `AssertionError` is embedded as `Except.error` with the
assertion's message. -/
def SlidingWindowInferer.init (roi_size : PyVal) (sw_batch_size : Int)
    (overlap : Rat) (blend_mode : String) : Except String SlidingWindowInferer :=
  if roi_size.isRoiSeq then
    .ok { roi_size := roi_size, sw_batch_size := sw_batch_size,
          overlap := overlap, blend_mode := blend_mode }
  else
    .error "must specify the roi size for SlidingWindow."

/-! ## `monai/networks/layers/simplelayers.py` -/

/-- Embedding of `Flatten.forward`: `return x.view(x.size(0), -1)`.  The
result keeps the batch size `x.size(0)` and folds every later dimension into
one; row-major data is unchanged by `view`. -/
def Flatten.forward (x : Tensor) : Tensor :=
  { x with shape := [x.shape.headD 0, (x.shape.drop 1).prod] }

/-- Embedding of `torch.cat([a, b], dim)`: defined when the two tensors have
the same rank, `dim` is in range, the shapes agree away from `dim`, and the
device/dtype tags agree; otherwise the framework raises, embedded as
`none`.  Row-major data is concatenated block-wise along `dim`. -/
def torchCat2 (a b : Tensor) (dim : Nat) : Option Tensor :=
  if a.shape.length = b.shape.length ∧ dim < a.shape.length ∧
      a.device = b.device ∧ a.dtype = b.dtype ∧
      (∀ i < a.shape.length, i ≠ dim → a.shape.getD i 0 = b.shape.getD i 0) then
    let outer := (a.shape.take dim).prod
    let sA := (a.shape.drop dim).prod
    let sB := (b.shape.drop dim).prod
    some { a with
           shape := a.shape.set dim (a.shape.getD dim 0 + b.shape.getD dim 0),
           data := (List.range outer).flatMap
             (fun o => ((a.data.drop (o * sA)).take sA) ++
                       ((b.data.drop (o * sB)).take sB)) }
  else
    none

/-- Embedding of `SkipConnection.forward`:
`return torch.cat([x, self.submodule(x)], self.cat_dim)`.  The submodule is a
tensor-to-tensor map; `cat_dim` is the stored configuration field. -/
def SkipConnection.forward (submodule : Tensor → Tensor) (cat_dim : Nat)
    (x : Tensor) : Option Tensor :=
  torchCat2 x (submodule x) cat_dim

/-- Embedding of one step of `GaussianFilter.forward`'s `_conv` closure: a
1-D cross-correlation of `t` with kernel `k` along tensor axis `ax`, with
zero padding `p` on both sides (the kernel is repeated over channels with
`groups=chns`, which convolves every batch/channel line independently with
the same 1-D kernel).  Output length along `ax` is `n + 2p - |k| + 1`. -/
def convAxis (t : Tensor) (k : List Rat) (ax : Nat) (p : Nat) : Tensor :=
  let n := t.shape.getD ax 0
  let outLen := n + 2 * p + 1 - k.length
  let outer := (t.shape.take ax).prod
  let inner := (t.shape.drop (ax + 1)).prod
  { t with
    shape := t.shape.set ax outLen,
    data := (List.range outer).flatMap fun o =>
      (List.range outLen).flatMap fun i =>
        (List.range inner).map fun q =>
          (List.range k.length).foldl (fun acc j =>
            let pos : Int := ((i + j : Nat) : Int) - (p : Int)
            if 0 ≤ pos ∧ pos < (n : Int) then
              acc + k.getD j 0 * t.data.getD (o * n * inner + pos.toNat * inner + q) 0
            else acc) 0 }

/-- The state of a `GaussianFilter` module after construction:
`self.spatial_dims`, the per-axis 1-D kernels `self.kernel` (tensors with
their own device/dtype tags), and the per-axis paddings `self.padding`. -/
structure GaussianFilter where
  spatial_dims : Nat
  kernel : List Tensor
  padding : List Nat
  deriving DecidableEq, Repr

/-- Embedding of `GaussianFilter.forward`: the input is first moved to the
first kernel's device and dtype (`x = torch.as_tensor(x).to(self.kernel[0])`);
the recursion `_conv(input, d) = conv_n(_conv(input, d - 1), kernel_d)` with
`_conv(input, -1) = input` is unrolled as a left fold applying axis
`0, 1, ..., spatial_dims - 1` in turn, each along tensor axis `d + 2`.
`self.kernel[0]` on an empty kernel list raises, embedded as `none`.  The
method assigns no attribute of `self`; the returned state is the input
state. -/
def GaussianFilter.forward (s : GaussianFilter) (x : Tensor) :
    Option Tensor × GaussianFilter :=
  match s.kernel.head? with
  | none => (none, s)
  | some k0 =>
    let x1 := tensorTo x k0
    let out := (List.range s.spatial_dims).foldl
      (fun acc d => convAxis acc (s.kernel.getD d k0).data (d + 2) (s.padding.getD d 0)) x1
    (some out, s)

/-! ## Sliding-window inference (spec-modelled)

`SlidingWindowInferer.__call__` delegates to `sliding_window_inference`,
imported from `monai/inferers/utils.py`; that file is not among the source
files, so the function is modelled from the spec below. -/

/-- Cartesian product of per-axis position lists, in row-major order. -/
def cartProd : List (List Nat) → List (List Nat)
  | [] => [[]]
  | l :: ls => l.flatMap (fun i => (cartProd ls).map (i :: ·))

/-- All multi-indices of a shape, in row-major order. -/
def multiIndices (shape : List Nat) : List (List Nat) :=
  cartProd (shape.map List.range)

/-- Row-major flat index of a multi-index in a shape. -/
def flatIndex (shape idx : List Nat) : Nat :=
  (shape.zip idx).foldl (fun a ni => a * ni.1 + ni.2) 0

/-- Modelled from the spec: window start positions along one axis of size `n`
for window size `r`.  The stride is `r` scaled down by the overlap fraction
(at least 1); windows are placed every stride until the axis is covered, the
final window clamped to end at the axis end ("windows that do not evenly
tile the input (must cover via final partial-stride window)"). -/
def scanStarts (n r : Nat) (overlap : Rat) : List Nat :=
  if n ≤ r then [0]
  else
    let step := max 1 (((r : Rat) * (1 - overlap)).floor.toNat)
    let cnt := (n - r + step - 1) / step + 1
    (List.range cnt).map (fun i => min (i * step) (n - r))

/-- Modelled from the spec: extraction of one window of spatial sizes `roi`
at spatial start positions `starts` from an input of shape
`[batch, channels, *spatial]`; reads outside the input (window larger than
the input) are zero-padded ("window larger than input (must pad or clip)"). -/
def extractWindow (x : Tensor) (roi : List Nat) (starts : List Nat) : Tensor :=
  let newShape := x.shape.take 2 ++ roi
  { x with
    shape := newShape,
    data := (multiIndices newShape).map fun idx =>
      match idx with
      | b :: c :: sp =>
        x.data.getD (flatIndex x.shape (b :: c :: sp.zipWith (· + ·) starts)) 0
      | _ => 0 }

/-- Modelled from the spec: blend weight of a prediction at relative spatial
position `rel` inside a window of sizes `roi`.  `"constant"` "gives equal
weight to all predictions"; for `"gaussian"` the spec fixes no formula beyond
"less weight to predictions on edges of windows", modelled as a per-axis tent
falloff. -/
def blendWeight (blend_mode : String) (roi rel : List Nat) : Rat :=
  if blend_mode = "gaussian" then
    (((roi.zip rel).map fun rr => min (rr.2 + 1) (rr.1 - rr.2)).prod : Nat)
  else 1

/-- Modelled from the spec: `sliding_window_inference` from
`monai/inferers/utils.py` (not among the source files).  Following §4.1: the
input of shape `[batch, channels, *spatial]` is partitioned into overlapping
windows of the configured sizes, the model is invoked on the windows, and the
overlapping predictions are blended back into a full-size output tensor as a
weighted average with the configured blend mode's weights.  The output
channel count is taken from the model's output on the first window (start
positions all 0); the output spatial sizes are the input's.  Invalid
call-time configuration — window-shape dimensionality not matching the
input's spatial rank, a non-positive window size (§3: "window shape must be
a non-empty ordered sequence of positive sizes"), or a non-positive window
batch size — fails, embedded as `none`.  Window batching
(`sw_batch_size`) only groups model invocations and does not change the
blended result, so the model is invoked per window here. -/
def sliding_window_inference (inputs : Tensor) (roi_size : List Nat)
    (sw_batch_size : Int) (network : Tensor → Tensor) (overlap : Rat)
    (blend_mode : String) : Option Tensor :=
  if inputs.shape.length = roi_size.length + 2 ∧ 1 ≤ roi_size.length ∧
      (∀ r ∈ roi_size, 1 ≤ r) ∧ 1 ≤ sw_batch_size then
    let batch := inputs.shape.getD 0 0
    let spatial := inputs.shape.drop 2
    let startsList :=
      cartProd ((spatial.zip roi_size).map fun nr => scanStarts nr.1 nr.2 overlap)
    let winOuts := startsList.map fun st => (st, network (extractWindow inputs roi_size st))
    let c_out :=
      (network (extractWindow inputs roi_size (roi_size.map fun _ => 0))).shape.getD 1 0
    let outShape := batch :: c_out :: spatial
    some { device := inputs.device, dtype := inputs.dtype, shape := outShape,
           data := (multiIndices outShape).map fun idx =>
        match idx with
        | b :: c :: sp =>
          let contrib := winOuts.foldl (fun acc stw =>
            let st := stw.1
            let rel := sp.zipWith (· - ·) st
            if (sp.zip st).all (fun ss => ss.2 ≤ ss.1) ∧
                (rel.zip roi_size).all (fun rr => rr.1 < rr.2) then
              let w := blendWeight blend_mode roi_size rel
              (acc.1 + w * stw.2.data.getD (flatIndex stw.2.shape (b :: c :: rel)) 0,
               acc.2 + w)
            else acc) ((0 : Rat), (0 : Rat))
          if contrib.2 = 0 then 0 else contrib.1 / contrib.2
        | _ => 0 }
  else none

/-- Embedding of `SlidingWindowInferer.__call__`:
`return sliding_window_inference(inputs, self.roi_size, self.sw_batch_size,
network, self.overlap, self.blend_mode)`. -/
def SlidingWindowInferer.call (c : SlidingWindowInferer) (inputs : Tensor)
    (network : Tensor → Tensor) : Option Tensor :=
  sliding_window_inference inputs c.roi_size.toSizes c.sw_batch_size network
    c.overlap c.blend_mode

/-! ## State-threading wrappers

The forward/inference methods assign no attribute of `self`; each wrapper
threads the module's configuration state explicitly so that statelessness is
expressible. -/

/-- `RegularInferer` stores no configuration; its state is `Unit`. -/
def RegularInferer.callS (s : Unit) (inputs : Tensor) (network : Tensor → Tensor) :
    Tensor × Unit :=
  (RegularInferer.call inputs network, s)

/-- `SlidingWindowInferer.__call__` with its configuration state threaded. -/
def SlidingWindowInferer.callS (c : SlidingWindowInferer) (inputs : Tensor)
    (network : Tensor → Tensor) : Option Tensor × SlidingWindowInferer :=
  (c.call inputs network, c)

/-- `SkipConnection.forward` with its configuration state (`self.cat_dim`)
threaded; the submodule is modelled as a pure tensor map. -/
def SkipConnection.forwardS (cat_dim : Nat) (submodule : Tensor → Tensor)
    (x : Tensor) : Option Tensor × Nat :=
  (SkipConnection.forward submodule cat_dim x, cat_dim)

/-- `Flatten` stores no configuration; its state is `Unit`. -/
def Flatten.forwardS (s : Unit) (x : Tensor) : Tensor × Unit :=
  (Flatten.forward x, s)

/-! ## Claims -/

/-- Claim C1: constructing a `SlidingWindowInferer` with a window-shape argument
that is not a list or tuple raises (the `assert isinstance(roi_size, (list,
tuple))` fails) during `__init__`, before any inference call. -/
theorem SlidingWindowInferer.init_nonsequence_errors (v : PyVal) (sw : Int)
    (ov : Rat) (bm : String) (h : v.isRoiSeq = false) :
    SlidingWindowInferer.init v sw ov bm =
      .error "must specify the roi size for SlidingWindow." := by
  simp [SlidingWindowInferer.init, h]

/-- Witness for C1 at `roi_size = 3` (a Python `int`, not a sequence). -/
theorem SlidingWindowInferer.init_nonsequence_errors_witness :
    (PyVal.pyInt 3).isRoiSeq = false ∧
      SlidingWindowInferer.init (PyVal.pyInt 3) 1 (1 / 4) "constant" =
        .error "must specify the roi size for SlidingWindow." :=
  ⟨by decide, SlidingWindowInferer.init_nonsequence_errors _ _ _ _ (by decide)⟩

/-- Claim C3: the direct (regular) inferer returns exactly `network(inputs)`. -/
theorem RegularInferer.call_is_network_of_inputs (x : Tensor)
    (net : Tensor → Tensor) : RegularInferer.call x net = net x :=
  rfl

/-- Claim C5: for an input of shape `B :: ds`, `Flatten.forward` returns a tensor
of shape `[B, ds.prod]`: the batch dimension is kept and all remaining
dimensions are flattened into one. -/
theorem Flatten.forward_shape (x : Tensor) (B : Nat) (ds : List Nat)
    (h : x.shape = B :: ds) : (Flatten.forward x).shape = [B, ds.prod] := by
  simp [Flatten.forward, h]

/-- Witness for C5 at a `[2, 3, 4]` input. -/
theorem Flatten.forward_shape_witness :
    (Tensor.mk 0 0 [2, 3, 4] (List.replicate 24 1)).shape = 2 :: [3, 4] ∧
      (Flatten.forward (Tensor.mk 0 0 [2, 3, 4] (List.replicate 24 1))).shape =
        [2, ([3, 4] : List Nat).prod] :=
  ⟨rfl, Flatten.forward_shape _ 2 [3, 4] rfl⟩

/-- Claim C8: the construction defaults of `SlidingWindowInferer.__init__` are
window batch size 1, overlap 0.25 and blend mode `"constant"`; constructing
with exactly these defaults stores them, and only the window shape is
checked (required, no default). -/
theorem SlidingWindowInferer.init_defaults :
    default_sw_batch_size = 1 ∧ default_overlap = 1 / 4 ∧
      default_blend_mode = "constant" ∧
      ∀ v : PyVal,
        SlidingWindowInferer.init v default_sw_batch_size default_overlap
            default_blend_mode =
          if v.isRoiSeq then .ok ⟨v, 1, 1 / 4, "constant"⟩
          else .error "must specify the roi size for SlidingWindow." := by
  refine ⟨rfl, rfl, rfl, fun v => ?_⟩
  by_cases h : v.isRoiSeq <;>
    simp [SlidingWindowInferer.init, h, default_sw_batch_size, default_overlap,
      default_blend_mode]

/-- Claim C10: the constructor validates nothing but the window shape's
sequence-ness: for every window batch size (negative included), every overlap
(outside `[0, 1)` included) and every blend-mode string (unrecognized
included), construction on a sequence window shape succeeds and stores the
four values unchanged. -/
theorem SlidingWindowInferer.init_no_other_validation (v : PyVal) (sw : Int)
    (ov : Rat) (bm : String) (h : v.isRoiSeq = true) :
    SlidingWindowInferer.init v sw ov bm = .ok ⟨v, sw, ov, bm⟩ := by
  simp [SlidingWindowInferer.init, h]

/-- Witness for C10: a negative window batch size, an overlap of 3.5 and the
blend mode `"bogus"` are all accepted and stored unchanged. -/
theorem SlidingWindowInferer.init_no_other_validation_witness :
    (PyVal.pyList [3, 3]).isRoiSeq = true ∧
      SlidingWindowInferer.init (PyVal.pyList [3, 3]) (-5) (7 / 2) "bogus" =
        .ok ⟨PyVal.pyList [3, 3], -5, 7 / 2, "bogus"⟩ :=
  ⟨by decide, SlidingWindowInferer.init_no_other_validation _ _ _ _ (by decide)⟩

/-- Counterexample to claim C2: constructing a `SlidingWindowInferer` with
the 1-dimensional window shape `[5]` succeeds (no configuration error at
construction), and the dimensionality mismatch against a 2-spatial-dimension
input only surfaces when the inferer is called. -/
theorem SlidingWindowInferer.init_wrong_dim_cex :
    SlidingWindowInferer.init (PyVal.pyList [5]) 1 (1 / 4) "constant" =
      .ok ⟨PyVal.pyList [5], 1, 1 / 4, "constant"⟩ ∧
    SlidingWindowInferer.call ⟨PyVal.pyList [5], 1, 1 / 4, "constant"⟩
        (Tensor.mk 0 0 [1, 1, 4, 4] (List.replicate 16 0)) (fun t => t) = none := by
  constructor
  · rfl
  · decide

/-- Claim C2 (amended): constructing a `SlidingWindowInferer` with a window
shape that is a sequence of any length succeeds — its dimensionality is not
validated at construction — and a mismatch with the input's spatial
dimensionality makes the inference call fail at call time. -/
theorem SlidingWindowInferer.wrong_dim_fails_at_call (xs : List Int) (sw : Int)
    (ov : Rat) (bm : String) (x : Tensor) (net : Tensor → Tensor)
    (h : x.shape.length ≠ xs.length + 2) :
    SlidingWindowInferer.init (PyVal.pyList xs) sw ov bm =
      .ok ⟨PyVal.pyList xs, sw, ov, bm⟩ ∧
    SlidingWindowInferer.call ⟨PyVal.pyList xs, sw, ov, bm⟩ x net = none := by
  refine ⟨rfl, ?_⟩
  rw [SlidingWindowInferer.call, sliding_window_inference, if_neg]
  intro hc
  exact h (by simpa [PyVal.toSizes] using hc.1)

/-- Witness for the amended claim C2: window shape `[5]` against an input of
rank 4 (two spatial dimensions). -/
theorem SlidingWindowInferer.wrong_dim_fails_at_call_witness :
    (Tensor.mk 0 0 [1, 1, 4, 4] (List.replicate 16 0)).shape.length ≠
        ([5] : List Int).length + 2 ∧
      (SlidingWindowInferer.init (PyVal.pyList [5]) 2 (1 / 2) "gaussian" =
          .ok ⟨PyVal.pyList [5], 2, 1 / 2, "gaussian"⟩ ∧
        SlidingWindowInferer.call ⟨PyVal.pyList [5], 2, 1 / 2, "gaussian"⟩
            (Tensor.mk 0 0 [1, 1, 4, 4] (List.replicate 16 0)) (fun t => t) = none) :=
  ⟨by decide,
    SlidingWindowInferer.wrong_dim_fails_at_call [5] 2 (1 / 2) "gaussian"
      (Tensor.mk 0 0 [1, 1, 4, 4] (List.replicate 16 0)) (fun t => t) (by decide)⟩

/-- Counterexample to claim C4: for the model that returns a fixed
`[1, 1, 1]` tensor regardless of its input, sliding-window inference on a
`[1, 1, 2]` input with window shape `[1]` produces a `[1, 1, 2]` output
while direct inference produces a `[1, 1, 1]` output — the claim's shape
equality fails for a model that does not preserve shapes. -/
theorem sliding_window_shape_cex :
    (sliding_window_inference (Tensor.mk 0 0 [1, 1, 2] [1, 2]) [1] 1
        (fun _ => Tensor.mk 0 0 [1, 1, 1] [5]) (1 / 4) "constant").map Tensor.shape =
      some [1, 1, 2] ∧
    (RegularInferer.call (Tensor.mk 0 0 [1, 1, 2] [1, 2])
        (fun _ => Tensor.mk 0 0 [1, 1, 1] [5])).shape = [1, 1, 1] ∧
    ([1, 1, 2] : List Nat) ≠ [1, 1, 1] := by
  refine ⟨?_, rfl, by decide⟩
  decide

/-- Claim C4 (amended): for every model whose output shape equals its
input's shape, and every window shape matching the input's spatial
dimensionality with positive sizes each at most the corresponding input
spatial size, sliding-window inference succeeds and its output has the same
shape as direct inference's output on the same model and input. -/
theorem sliding_window_shape_eq_direct (x : Tensor) (roi : List Nat) (sw : Int)
    (net : Tensor → Tensor) (ov : Rat) (bm : String) (B C : Nat) (sp : List Nat)
    (hx : x.shape = B :: C :: sp) (hlen : roi.length = sp.length)
    (hne : 1 ≤ roi.length) (hpos : ∀ r ∈ roi, 1 ≤ r) (hsw : 1 ≤ sw)
    (_hle : ∀ p ∈ roi.zip sp, p.1 ≤ p.2)
    (hnet : ∀ t, (net t).shape = t.shape) :
    ∃ out, sliding_window_inference x roi sw net ov bm = some out ∧
      out.shape = (RegularInferer.call x net).shape := by
  have hcond : x.shape.length = roi.length + 2 ∧ 1 ≤ roi.length ∧
      (∀ r ∈ roi, 1 ≤ r) ∧ 1 ≤ sw := by
    refine ⟨?_, hne, hpos, hsw⟩
    simp [hx, hlen]
  rw [sliding_window_inference, if_pos hcond]
  refine ⟨_, rfl, ?_⟩
  have hwin : (extractWindow x roi (roi.map fun _ => 0)).shape = B :: C :: roi := by
    simp [extractWindow, hx]
  simp only [RegularInferer.call, hnet, hx, hwin]
  simp

/-- Witness for the amended claim C4: the identity model on a `[1, 1, 2]`
input with window shape `[1]`. -/
theorem sliding_window_shape_eq_direct_witness :
    ((Tensor.mk 0 0 [1, 1, 2] [1, 2]).shape = 1 :: 1 :: [2] ∧
      ([1] : List Nat).length = ([2] : List Nat).length ∧
      (∀ r ∈ ([1] : List Nat), 1 ≤ r) ∧ (1 : Int) ≥ 1 ∧
      (∀ p ∈ ([1] : List Nat).zip [2], p.1 ≤ p.2)) ∧
    ∃ out, sliding_window_inference (Tensor.mk 0 0 [1, 1, 2] [1, 2]) [1] 1
        (fun t => t) (1 / 4) "constant" = some out ∧
      out.shape = (RegularInferer.call (Tensor.mk 0 0 [1, 1, 2] [1, 2])
        (fun t => t)).shape :=
  ⟨⟨rfl, rfl, by decide, by decide, by decide⟩,
    sliding_window_shape_eq_direct (Tensor.mk 0 0 [1, 1, 2] [1, 2]) [1] 1
      (fun t => t) (1 / 4) "constant" 1 1 [2] rfl rfl (by decide) (by decide)
      (by decide) (by decide) (fun t => rfl)⟩

/-- Claim C6: when `SkipConnection.forward` produces an output, the output's
size along the configured concatenation axis is the input's size plus the
submodule output's size on that axis, and every other axis keeps the input's
size (and the rank is unchanged). -/
theorem SkipConnection.forward_cat_shape (sub : Tensor → Tensor) (d : Nat)
    (x y : Tensor) (h : SkipConnection.forward sub d x = some y) :
    y.shape.length = x.shape.length ∧
    y.shape.getD d 0 = x.shape.getD d 0 + (sub x).shape.getD d 0 ∧
    ∀ i, i ≠ d → y.shape.getD i 0 = x.shape.getD i 0 := by
  unfold SkipConnection.forward torchCat2 at h
  split at h
  · rename_i hc
    obtain ⟨h1, h2, h3, h4, h5⟩ := hc
    cases h
    refine ⟨by simp, ?_, ?_⟩
    · simp [List.getD_eq_getElem?_getD]
      rw [List.getElem?_set_self (by simpa using h2)]
      simp
    · intro i hi
      simp [List.getD_eq_getElem?_getD]
      rw [List.getElem?_set_ne (by omega)]
  · exact absurd h (by simp)

/-- Witness for claim C6: the identity submodule on a `[2]` input with
concatenation axis 0, giving a `[4]` output. -/
theorem SkipConnection.forward_cat_shape_witness :
    SkipConnection.forward (fun t => t) 0 (Tensor.mk 0 0 [2] [1, 2]) =
        some (Tensor.mk 0 0 [4] [1, 2, 1, 2]) ∧
      ((Tensor.mk 0 0 [4] [1, 2, 1, 2]).shape.length =
          (Tensor.mk 0 0 [2] [1, 2]).shape.length ∧
        (Tensor.mk 0 0 [4] [1, 2, 1, 2]).shape.getD 0 0 =
          (Tensor.mk 0 0 [2] [1, 2]).shape.getD 0 0 +
            ((fun t => t) (Tensor.mk 0 0 [2] [1, 2]) : Tensor).shape.getD 0 0 ∧
        ∀ i, i ≠ 0 → (Tensor.mk 0 0 [4] [1, 2, 1, 2]).shape.getD i 0 =
          (Tensor.mk 0 0 [2] [1, 2]).shape.getD i 0) :=
  ⟨by decide,
    SkipConnection.forward_cat_shape (fun t => t) 0 (Tensor.mk 0 0 [2] [1, 2])
      (Tensor.mk 0 0 [4] [1, 2, 1, 2]) (by decide)⟩

/-- Counterexample to claim C7: a `GaussianFilter` whose kernel has
device/dtype tag 0 (CPU, `float32`), called on an input with device/dtype
tag 1: after the call the kernels still carry tag 0 — they are not
reconciled to the input; instead the output carries the kernel's tag,
because the input was converted to the kernel's device and dtype. -/
theorem GaussianFilter.forward_kernel_dtype_cex :
    (GaussianFilter.forward (GaussianFilter.mk 1 [Tensor.mk 0 0 [3] [0, 1, 0]] [1])
        (Tensor.mk 1 1 [1, 1, 2] [1, 2])).2 =
      GaussianFilter.mk 1 [Tensor.mk 0 0 [3] [0, 1, 0]] [1] ∧
    ((GaussianFilter.forward (GaussianFilter.mk 1 [Tensor.mk 0 0 [3] [0, 1, 0]] [1])
        (Tensor.mk 1 1 [1, 1, 2] [1, 2])).2.kernel.map Tensor.dtype = [0]) ∧
    (Tensor.mk 1 1 [1, 1, 2] [1, 2]).dtype = 1 ∧
    ((GaussianFilter.forward (GaussianFilter.mk 1 [Tensor.mk 0 0 [3] [0, 1, 0]] [1])
        (Tensor.mk 1 1 [1, 1, 2] [1, 2])).1.map Tensor.dtype = some 0) ∧
    (0 : Nat) ≠ 1 := by
  refine ⟨rfl, rfl, rfl, ?_, by decide⟩
  decide

/-- `convAxis` keeps its input's device and dtype tags, so the fold of
per-axis convolutions in `GaussianFilter.forward` keeps the device and dtype
of the converted input. -/
theorem foldl_conv_device (s : GaussianFilter) (k0 : Tensor) (l : List Nat)
    (acc : Tensor) :
    ((l.foldl (fun acc d =>
        convAxis acc (s.kernel.getD d k0).data (d + 2) (s.padding.getD d 0)) acc).device
        = acc.device) ∧
    ((l.foldl (fun acc d =>
        convAxis acc (s.kernel.getD d k0).data (d + 2) (s.padding.getD d 0)) acc).dtype
        = acc.dtype) := by
  induction l generalizing acc with
  | nil => exact ⟨rfl, rfl⟩
  | cons d ds ih =>
    simpa [List.foldl_cons, convAxis] using
      ih (convAxis acc (s.kernel.getD d k0).data (d + 2) (s.padding.getD d 0))

/-- Claim C7 (amended): at call time the input is converted to the first
kernel's device and dtype — the input is adapted to the kernels, not the
kernels to the input — the filter's state (its kernels included) is left
unchanged, and the output carries the first kernel's device and dtype. -/
theorem GaussianFilter.forward_adapts_input_to_kernel (s : GaussianFilter)
    (x k0 : Tensor) (ks : List Tensor) (h : s.kernel = k0 :: ks) :
    (GaussianFilter.forward s x).2 = s ∧
    ∃ y, (GaussianFilter.forward s x).1 = some y ∧
      y.device = k0.device ∧ y.dtype = k0.dtype := by
  have hh : s.kernel.head? = some k0 := by rw [h]; rfl
  rw [GaussianFilter.forward, hh]
  exact ⟨rfl, _, rfl, (foldl_conv_device s k0 _ (tensorTo x k0)).1,
    (foldl_conv_device s k0 _ (tensorTo x k0)).2⟩

/-- Witness for the amended claim C7: a one-kernel filter with device/dtype
tag 0 on an input with device/dtype tag 1. -/
theorem GaussianFilter.forward_adapts_input_to_kernel_witness :
    (GaussianFilter.mk 1 [Tensor.mk 0 0 [3] [0, 1, 0]] [1]).kernel =
        Tensor.mk 0 0 [3] [0, 1, 0] :: [] ∧
      ((GaussianFilter.forward (GaussianFilter.mk 1 [Tensor.mk 0 0 [3] [0, 1, 0]] [1])
          (Tensor.mk 1 1 [1, 1, 2] [1, 2])).2 =
        GaussianFilter.mk 1 [Tensor.mk 0 0 [3] [0, 1, 0]] [1] ∧
      ∃ y, (GaussianFilter.forward (GaussianFilter.mk 1 [Tensor.mk 0 0 [3] [0, 1, 0]] [1])
          (Tensor.mk 1 1 [1, 1, 2] [1, 2])).1 = some y ∧
        y.device = (Tensor.mk 0 0 [3] [0, 1, 0]).device ∧
        y.dtype = (Tensor.mk 0 0 [3] [0, 1, 0]).dtype) :=
  ⟨rfl,
    GaussianFilter.forward_adapts_input_to_kernel
      (GaussianFilter.mk 1 [Tensor.mk 0 0 [3] [0, 1, 0]] [1])
      (Tensor.mk 1 1 [1, 1, 2] [1, 2]) (Tensor.mk 0 0 [3] [0, 1, 0]) [] rfl⟩

/-- Claim C9: every component is stateless once constructed — the state
returned by the forward/inference operation of `SlidingWindowInferer`,
`RegularInferer`, `SkipConnection`, `Flatten` and `GaussianFilter` equals
the state it was given, and a repeated call on the returned state yields the
same result. -/
theorem components_stateless :
    (∀ (c : SlidingWindowInferer) x net, (SlidingWindowInferer.callS c x net).2 = c ∧
      SlidingWindowInferer.callS (SlidingWindowInferer.callS c x net).2 x net =
        SlidingWindowInferer.callS c x net) ∧
    (∀ (u : Unit) x net, (RegularInferer.callS u x net).2 = u ∧
      RegularInferer.callS (RegularInferer.callS u x net).2 x net =
        RegularInferer.callS u x net) ∧
    (∀ d sub x, (SkipConnection.forwardS d sub x).2 = d ∧
      SkipConnection.forwardS (SkipConnection.forwardS d sub x).2 sub x =
        SkipConnection.forwardS d sub x) ∧
    (∀ (u : Unit) x, (Flatten.forwardS u x).2 = u ∧
      Flatten.forwardS (Flatten.forwardS u x).2 x = Flatten.forwardS u x) ∧
    (∀ (s : GaussianFilter) x, (GaussianFilter.forward s x).2 = s ∧
      GaussianFilter.forward (GaussianFilter.forward s x).2 x =
        GaussianFilter.forward s x) := by
  refine ⟨fun c x net => ⟨rfl, rfl⟩, fun u x net => ⟨rfl, rfl⟩,
    fun d sub x => ⟨rfl, rfl⟩, fun u x => ⟨rfl, rfl⟩, fun s x => ?_⟩
  have h2 : (GaussianFilter.forward s x).2 = s := by
    rw [GaussianFilter.forward]
    cases s.kernel.head? <;> rfl
  exact ⟨h2, by rw [h2]⟩
